import Mathlib

/-!
Verification development for the websocket smart-card bridge
(`server-5.py`, the later and most complete variant of the repository,
with `server-4.py` agreeing on every branch it implements).

Bytes are modelled as natural numbers (`List Nat`); values read from the
wire are below 256.  The per-message body of `handle_client` is embedded
as a pure function from the received binary message to an `Outcome`
(the frame sent back, if any, and whether the session terminates).
The elapsed time `time.time() - start_time` is modelled as a rational
number `elapsed`; the native card backend reached through
`SendApdu_softToken` is an oracle parameter: given the command bytes it
either fails (`none`, a raised exception) or fills the 10000-byte
response buffer and the `response_len` out-parameter, modelled as
`some (response_len, buffer)`.
-/

namespace WsCard

/-- Python `n.to_bytes(2, byteorder=big)`: two big-endian bytes when
`n < 65536`, otherwise `none` (Python raises `OverflowError`). -/
def toBytes2 (n : Nat) : Option (List Nat) :=
  if n < 65536 then some [n / 256, n % 256] else none

/-- The frame codec encode of the source: `tag.to_bytes(2, big) ++
len(payload).to_bytes(2, big) ++ payload`, exactly as each response is
assembled in `handle_client` (server-5.py lines 151-155, 162-166,
185-189).  `none` models the `OverflowError` raised by `to_bytes`. -/
def encodeFrame (tag : Nat) (payload : List Nat) : Option (List Nat) :=
  match toBytes2 tag, toBytes2 payload.length with
  | some t, some l => some (t ++ l ++ payload)
  | _, _ => none

/-- Outcome of handling one received binary message: the frame written
back to the websocket (if any), and whether the session terminates
(either the loop body raised, or the connection was dropped). -/
structure Outcome where
  response : Option (List Nat)
  closed : Bool
deriving DecidableEq

/-- Building and sending one encoded response: on encode success the
frame is sent and the loop continues; an encode overflow raises out of
`handle_client`, so nothing is sent and the session dies. -/
def sendEncoded (tag : Nat) (payload : List Nat) : Outcome :=
  match encodeFrame tag payload with
  | some r => ⟨some r, false⟩
  | none => ⟨none, true⟩

/-- The oracle for the native `SendApdu_softToken` call: command bytes
in, either a raised exception (`none`) or the pair of the value stored
in `response_len` and the contents of the 10000-byte `response_apdu`
buffer. -/
def Backend : Type := List Nat → Option (Nat × List Nat)

/-- `handle_apdu` of server-5.py: invoke the backend and return
`bytes(response_apdu[:response_len.value])`, i.e. the first
`response_len` bytes of the buffer (a Python slice clamps at the buffer
length); a raised exception propagates (`none`). -/
def handle_apdu (b : Backend) (apdu_command : List Nat) : Option (List Nat) :=
  (b apdu_command).map (fun p => p.2.take p.1)

/-- The response buffer passed to the native call is allocated with
exactly 10000 cells (`(ctypes.c_ubyte * 10000)()`): a backend oracle is
well formed when every successful call reports a 10000-byte buffer. -/
def BackendWF (b : Backend) : Prop :=
  ∀ cmd n buf, b cmd = some (n, buf) → buf.length = 10000

/-- Fixed status payload `b"\x55\x55\x55\x55"`. -/
def statusData : List Nat := [0x55, 0x55, 0x55, 0x55]

/-- Fixed ATR constant of the source. -/
def atrData : List Nat :=
  [0x3f, 0x95, 0x13, 0x81, 0x01, 0x80, 0x73, 0xff, 0x01, 0x00, 0x0b]

/-- The placeholder / fallback APDU response `b"\x6d\x82"`. -/
def swInsNotSupported : List Nat := [0x6d, 0x82]

/-- The literal default response `b"\x00\x02\x6d\x82"` of the unknown-tag
branch. -/
def defaultResponse : List Nat := [0x00, 0x02, 0x6d, 0x82]

/-- One iteration of the receive loop of `handle_client` (server-5.py
lines 143-203) on a binary message: route on
`message[1] if len(message) > 1 else None`, then the elif chain
91 / 87 / 89 / in [83, 81] / 85 / else. -/
def handle_client_step (b : Backend) (elapsed : ℚ) (message : List Nat) :
    Outcome :=
  let tag_recvd := message[1]?
  if tag_recvd = some 91 then
    sendEncoded 91 statusData
  else if tag_recvd = some 87 then
    sendEncoded 88 atrData
  else if tag_recvd = some 89 then
    if elapsed ≤ 5 then
      sendEncoded 90 swInsNotSupported
    else
      match handle_apdu b (message.drop 2) with
      | some resp => sendEncoded 90 resp
      | none => sendEncoded 90 swInsNotSupported
  else if tag_recvd = some 83 ∨ tag_recvd = some 81 then
    ⟨none, false⟩
  else if tag_recvd = some 85 then
    ⟨none, false⟩
  else
    ⟨some defaultResponse, false⟩

/-- Session-dispatcher states of the spec (§4.3); `DISPATCHING` is
transient inside `handle_client_step` and not observable between
messages. -/
inductive SessionState where
  | AWAITING_FRAME
  | CLOSED
deriving DecidableEq

/-- State the session is in after one message is handled. -/
def nextState (o : Outcome) : SessionState :=
  if o.closed then .CLOSED else .AWAITING_FRAME

/-- The whole receive loop of `handle_client` over a finite trace of
(elapsed time, message) pairs: the list of frames sent, stopping as soon
as an iteration terminates the session. -/
def handle_client_run (b : Backend) : List (ℚ × List Nat) → List (List Nat)
  | [] => []
  | (t, m) :: rest =>
    let o := handle_client_step b t m
    o.response.toList ++ (if o.closed then [] else handle_client_run b rest)

/-- The length field a frame declares under the wire format of §6:
bytes 2-3, big-endian (0 when the frame is shorter than 4 bytes). -/
def declaredLen (m : List Nat) : Nat :=
  m[2]?.getD 0 * 256 + m[3]?.getD 0

/-- A truncated frame: at least the 4-byte header is present but fewer
payload bytes follow than the length field declares. -/
def truncatedFrame (m : List Nat) : Prop :=
  4 ≤ m.length ∧ m.length - 4 < declaredLen m

instance (m : List Nat) : Decidable (truncatedFrame m) := by
  unfold truncatedFrame
  infer_instance

/-- Modelled from the spec: the Frame Codec decode of §4.1 and §3 has no
counterpart in the source (inbound messages are routed on byte index 1
only and the inbound length field is never read), so it is taken from
the spec words: tag from bytes[0..2) big-endian, length from
bytes[2..4), then exactly `length` payload bytes; malformed (`none`)
when fewer than 4 bytes are available or fewer than `length` payload
bytes follow. -/
def decode (buffer : List Nat) : Option (Nat × List Nat) :=
  match buffer with
  | t1 :: t0 :: l1 :: l0 :: rest =>
    if rest.length < l1 * 256 + l0 then none
    else some (t1 * 256 + t0, rest.take (l1 * 256 + l0))
  | _ => none

/-! ### Helper lemmas -/

theorem toBytes2_of_lt {n : Nat} (h : n < 65536) :
    toBytes2 n = some [n / 256, n % 256] := by
  simp [toBytes2, h]

theorem sendEncoded_of_lt {tag : Nat} {payload : List Nat}
    (h1 : tag < 65536) (h2 : payload.length < 65536) :
    sendEncoded tag payload =
      ⟨some (tag / 256 :: tag % 256 :: payload.length / 256 ::
        payload.length % 256 :: payload), false⟩ := by
  simp [sendEncoded, encodeFrame, toBytes2_of_lt h1, toBytes2_of_lt h2]

theorem handle_apdu_length_le {b : Backend} (hb : BackendWF b)
    {cmd X : List Nat} (h : handle_apdu b cmd = some X) :
    X.length ≤ 10000 := by
  unfold handle_apdu at h
  cases hc : b cmd with
  | none => rw [hc] at h; simp at h
  | some p =>
    obtain ⟨n, buf⟩ := p
    rw [hc] at h
    simp only [Option.map_some', Option.some.injEq] at h
    have hlen := hb cmd n buf hc
    rw [← h]
    simp [List.length_take, hlen]

theorem step_of_tag91 (b : Backend) (elapsed : ℚ) {message : List Nat}
    (h : message[1]? = some 91) :
    handle_client_step b elapsed message =
      ⟨some [0, 91, 0, 4, 0x55, 0x55, 0x55, 0x55], false⟩ := by
  simp [handle_client_step, h, sendEncoded, encodeFrame, toBytes2, statusData]

theorem step_of_tag87 (b : Backend) (elapsed : ℚ) {message : List Nat}
    (h : message[1]? = some 87) :
    handle_client_step b elapsed message =
      ⟨some [0, 88, 0, 11, 0x3f, 0x95, 0x13, 0x81, 0x01, 0x80, 0x73, 0xff,
        0x01, 0x00, 0x0b], false⟩ := by
  simp [handle_client_step, h, sendEncoded, encodeFrame, toBytes2, atrData]

theorem step_of_tag89_warm (b : Backend) {elapsed : ℚ} {message : List Nat}
    (h : message[1]? = some 89) (hw : elapsed ≤ 5) :
    handle_client_step b elapsed message =
      ⟨some [0, 90, 0, 2, 0x6d, 0x82], false⟩ := by
  simp [handle_client_step, h, hw, sendEncoded, encodeFrame, toBytes2,
    swInsNotSupported]

theorem step_of_tag89_op (b : Backend) {elapsed : ℚ} {message : List Nat}
    (h : message[1]? = some 89) (hw : ¬ elapsed ≤ 5) :
    handle_client_step b elapsed message =
      match handle_apdu b (message.drop 2) with
      | some resp => sendEncoded 90 resp
      | none => sendEncoded 90 swInsNotSupported := by
  simp [handle_client_step, h, hw]

theorem step_of_tag_ignored (b : Backend) (elapsed : ℚ) {message : List Nat}
    {t : Nat} (h : message[1]? = some t) (hmem : t = 83 ∨ t = 81 ∨ t = 85) :
    handle_client_step b elapsed message = ⟨none, false⟩ := by
  rcases hmem with rfl | rfl | rfl <;> simp [handle_client_step, h]

theorem step_of_tag_default (b : Backend) (elapsed : ℚ) {message : List Nat}
    (h : ∀ t, message[1]? = some t → t ∉ ([91, 87, 89, 83, 81, 85] : List Nat)) :
    handle_client_step b elapsed message = ⟨some defaultResponse, false⟩ := by
  cases hm : message[1]? with
  | none => simp [handle_client_step, hm]
  | some t =>
    have ht := h t hm
    simp only [List.mem_cons, List.not_mem_nil, or_false, not_or] at ht
    obtain ⟨h1, h2, h3, h4, h5, h6⟩ := ht
    simp [handle_client_step, hm, h1, h2, h3, h4, h5, h6]

/-! ### Claim theorems -/

/-- C1: a Command APDU frame (routing byte at index 1 equal to 89)
received while `elapsed ≤ 5` seconds is answered with a frame of tag 90
and payload exactly `6D 82`, whatever the command bytes, and the
outcome is independent of the backend (processApdu is not invoked). -/
theorem warmup_returns_6d82 (b : Backend) (elapsed : ℚ) (message : List Nat)
    (h89 : message[1]? = some 89) (hwarm : elapsed ≤ 5) :
    handle_client_step b elapsed message =
      ⟨some ([0, 90] ++ [0, 2] ++ [0x6d, 0x82]), false⟩ ∧
    ∀ b2 : Backend,
      handle_client_step b2 elapsed message =
        handle_client_step b elapsed message := by
  refine ⟨step_of_tag89_warm b h89 hwarm, fun b2 => ?_⟩
  rw [step_of_tag89_warm b h89 hwarm, step_of_tag89_warm b2 h89 hwarm]

/-- Witness for C1 at a concrete input. -/
theorem warmup_returns_6d82_witness :
    handle_client_step (fun _ => none) 3 [0, 89, 222, 7] =
      ⟨some ([0, 90] ++ [0, 2] ++ [0x6d, 0x82]), false⟩ :=
  (warmup_returns_6d82 (fun _ => none) 3 [0, 89, 222, 7]
    (by decide) (by decide)).1

/-- C5: an inbound message whose routing byte (index 1) is none of
91, 87, 89, 83, 81, 85 is answered with exactly the 4-byte frame
`00 02 6D 82` and the session remains open. -/
theorem unknown_tag_default_response (b : Backend) (elapsed : ℚ)
    (message : List Nat) (t : Nat) (h : message[1]? = some t)
    (hmem : t ∉ ([91, 87, 89, 83, 81, 85] : List Nat)) :
    handle_client_step b elapsed message =
      ⟨some [0x00, 0x02, 0x6d, 0x82], false⟩ ∧
    nextState (handle_client_step b elapsed message) =
      SessionState.AWAITING_FRAME := by
  have hs : handle_client_step b elapsed message =
      ⟨some defaultResponse, false⟩ := by
    refine step_of_tag_default b elapsed (fun u hu => ?_)
    rw [h] at hu
    cases hu
    exact hmem
  exact ⟨hs, by rw [hs]; rfl⟩

/-- Witness for C5 at a concrete input. -/
theorem unknown_tag_default_response_witness :
    handle_client_step (fun _ => none) 0 [1, 42, 3] =
      ⟨some [0x00, 0x02, 0x6d, 0x82], false⟩ :=
  (unknown_tag_default_response (fun _ => none) 0 [1, 42, 3] 42
    (by decide) (by decide)).1

/-- C7: an inbound message whose routing byte (index 1) is 91 is
answered, at any elapsed time, with a frame whose tag field is 91 (the
inbound routing byte reused) and whose payload is `55 55 55 55`. -/
theorem status_request_response (b : Backend) (elapsed : ℚ)
    (message : List Nat) (h : message[1]? = some 91) :
    handle_client_step b elapsed message =
      ⟨some ([0, 91] ++ [0, 4] ++ [0x55, 0x55, 0x55, 0x55]), false⟩ :=
  step_of_tag91 b elapsed h

/-- Witness for C7 at a concrete input, inside the warm-up window. -/
theorem status_request_response_witness :
    handle_client_step (fun _ => none) 1 [9, 91, 1, 2, 3] =
      ⟨some ([0, 91] ++ [0, 4] ++ [0x55, 0x55, 0x55, 0x55]), false⟩ :=
  status_request_response (fun _ => none) 1 [9, 91, 1, 2, 3] (by decide)

/-- C8: an inbound message whose routing byte (index 1) is 83, 81 or 85
elicits no response frame, the session stays in `AWAITING_FRAME`, and a
subsequent frame on the same session is processed exactly as if the
ignored message had not been received. -/
theorem ignored_tags_no_response (b : Backend) (elapsed : ℚ)
    (message : List Nat) (t : Nat) (h : message[1]? = some t)
    (hmem : t = 83 ∨ t = 81 ∨ t = 85) (rest : List (ℚ × List Nat)) :
    handle_client_step b elapsed message = ⟨none, false⟩ ∧
    nextState (handle_client_step b elapsed message) =
      SessionState.AWAITING_FRAME ∧
    handle_client_run b ((elapsed, message) :: rest) =
      handle_client_run b rest := by
  have hs := step_of_tag_ignored b elapsed h hmem
  refine ⟨hs, by rw [hs]; rfl, ?_⟩
  simp [handle_client_run, hs]

/-- Witness for C8 at a concrete input. -/
theorem ignored_tags_no_response_witness :
    handle_client_step (fun _ => none) 0 [0, 85] = ⟨none, false⟩ ∧
    handle_client_run (fun _ => none) [(0, [0, 85]), (0, [0, 91])] =
      handle_client_run (fun _ => none) [(0, [0, 91])] :=
  ⟨(ignored_tags_no_response (fun _ => none) 0 [0, 85] 85 (by decide)
      (by decide) []).1,
   (ignored_tags_no_response (fun _ => none) 0 [0, 85] 85 (by decide)
      (by decide) [(0, [0, 91])]).2.2⟩

/-- C10: an inbound message of length 0 or 1 (no routing byte at
index 1) does not close the connection: it takes the unknown-tag branch,
the generic 4-byte error frame `00 02 6D 82` is sent, and the session
keeps processing further frames. -/
theorem short_message_default_response (b : Backend) (elapsed : ℚ)
    (message : List Nat) (h : message.length ≤ 1)
    (rest : List (ℚ × List Nat)) :
    handle_client_step b elapsed message =
      ⟨some [0x00, 0x02, 0x6d, 0x82], false⟩ ∧
    nextState (handle_client_step b elapsed message) =
      SessionState.AWAITING_FRAME ∧
    handle_client_run b ((elapsed, message) :: rest) =
      [0x00, 0x02, 0x6d, 0x82] :: handle_client_run b rest := by
  have hnone : message[1]? = none := List.getElem?_eq_none h
  have hs : handle_client_step b elapsed message =
      ⟨some defaultResponse, false⟩ := by
    refine step_of_tag_default b elapsed (fun u hu => ?_)
    rw [hnone] at hu
    cases hu
  refine ⟨hs, by rw [hs]; rfl, ?_⟩
  simp [handle_client_run, hs, defaultResponse]

/-- Witness for C10 at the empty message and a one-byte message. -/
theorem short_message_default_response_witness :
    handle_client_step (fun _ => none) 0 [] =
      ⟨some [0x00, 0x02, 0x6d, 0x82], false⟩ ∧
    handle_client_run (fun _ => none) [(2, [89])] =
      [[0x00, 0x02, 0x6d, 0x82]] :=
  ⟨(short_message_default_response (fun _ => none) 0 [] (by decide) []).1,
   (short_message_default_response (fun _ => none) 2 [89] (by decide) []).2.2⟩

/-- C2: a Command APDU frame after the warm-up window: when the
backend's `handle_apdu` returns bytes `X` the response is tag 90 with
payload exactly `X`; when it raises, the response is tag 90 with payload
`6D 82`; in both cases the session survives. -/
theorem apdu_after_warmup (b : Backend) (hb : BackendWF b) (elapsed : ℚ)
    (message : List Nat) (h89 : message[1]? = some 89)
    (hwarm : ¬ elapsed ≤ 5) :
    (∀ X, handle_apdu b (message.drop 2) = some X →
      handle_client_step b elapsed message =
        ⟨some ([0, 90] ++ [X.length / 256, X.length % 256] ++ X), false⟩) ∧
    (handle_apdu b (message.drop 2) = none →
      handle_client_step b elapsed message =
        ⟨some ([0, 90] ++ [0, 2] ++ [0x6d, 0x82]), false⟩) := by
  have hop := step_of_tag89_op b h89 hwarm
  constructor
  · intro X hX
    have hle : X.length < 65536 :=
      lt_of_le_of_lt (handle_apdu_length_le hb hX) (by norm_num)
    rw [hop, hX]
    show sendEncoded 90 X = _
    rw [sendEncoded_of_lt (by norm_num) hle]
    simp
  · intro hX
    rw [hop, hX]
    show sendEncoded 90 swInsNotSupported = _
    decide

/-- Witness for C2, with a backend filling the first two buffer cells. -/
theorem apdu_after_warmup_witness :
    handle_client_step (fun _ => some (2, List.replicate 10000 7)) 6
        [0, 89, 1] = ⟨some [0, 90, 0, 2, 7, 7], false⟩ ∧
    handle_client_step (fun _ => none) 6 [0, 89, 1] =
      ⟨some [0, 90, 0, 2, 0x6d, 0x82], false⟩ := by
  constructor
  · have hb : BackendWF (fun _ => some (2, List.replicate 10000 7)) := by
      intro cmd n buf h
      have h2 : List.replicate 10000 7 = buf :=
        congrArg Prod.snd (Option.some.inj h)
      rw [← h2, List.length_replicate]
    have h := (apdu_after_warmup _ hb 6 [0, 89, 1] (by decide)
        (by decide)).1 [7, 7] (by decide)
    exact h.trans (by decide)
  · have h := (apdu_after_warmup (fun _ => none) (fun cmd n buf h =>
        Option.noConfusion h) 6 [0, 89, 1] (by decide) (by decide)).2 rfl
    exact h.trans (by decide)

/-- Modelled from the spec words of C3 (§4.3, Command APDU: strip the
2-byte tag and 2-byte length header, i.e. forward exactly the frame
payload): a dispatcher variant identical to `handle_client_step` except
that the Command-APDU branch forwards `message[4:]` instead of the
source `message[2:]`.  It exists only to be compared with the source
dispatcher. -/
def handle_client_step_strip4 (b : Backend) (elapsed : ℚ)
    (message : List Nat) : Outcome :=
  let tag_recvd := message[1]?
  if tag_recvd = some 91 then
    sendEncoded 91 statusData
  else if tag_recvd = some 87 then
    sendEncoded 88 atrData
  else if tag_recvd = some 89 then
    if elapsed ≤ 5 then
      sendEncoded 90 swInsNotSupported
    else
      match handle_apdu b (message.drop 4) with
      | some resp => sendEncoded 90 resp
      | none => sendEncoded 90 swInsNotSupported
  else if tag_recvd = some 83 ∨ tag_recvd = some 81 then
    ⟨none, false⟩
  else if tag_recvd = some 85 then
    ⟨none, false⟩
  else
    ⟨some defaultResponse, false⟩

/-- Counterexample to C3: on the well-formed frame
`00 89 00 01 AB` (tag 0x0059, length 1, payload `AB`) after warm-up,
with an echo backend that returns its command bytes unchanged, the
source dispatcher answers with payload `00 01 AB` — the length field is
still in the forwarded command — while the spec-faithful variant that
strips the full 4-byte header would answer with payload `AB`. -/
theorem apdu_forward_keeps_length_cex :
    handle_client_step (fun cmd => some (cmd.length, cmd)) 6
        [0x00, 89, 0x00, 0x01, 0xAB] =
      ⟨some [0, 90, 0, 3, 0x00, 0x01, 0xAB], false⟩ ∧
    handle_client_step_strip4 (fun cmd => some (cmd.length, cmd)) 6
        [0x00, 89, 0x00, 0x01, 0xAB] =
      ⟨some [0, 90, 0, 1, 0xAB], false⟩ ∧
    ([0x00, 0x01, 0xAB] : List Nat) ≠ ([0xAB] : List Nat) := by
  refine ⟨by decide, by decide, by decide⟩

/-- C3 amended: after the warm-up window the dispatcher consults the
backend on exactly `message[2:]` — the inbound message with only the
2-byte tag field stripped, so the forwarded command still starts with
the 2-byte length field followed by the payload. -/
theorem apdu_forwards_message_drop_two (b1 b2 : Backend) (elapsed : ℚ)
    (message : List Nat) (h89 : message[1]? = some 89)
    (hwarm : ¬ elapsed ≤ 5)
    (hagree : b1 (message.drop 2) = b2 (message.drop 2)) :
    handle_client_step b1 elapsed message =
      handle_client_step b2 elapsed message ∧
    message.drop 2 = (message.drop 2).take 2 ++ message.drop 4 := by
  constructor
  · rw [step_of_tag89_op b1 h89 hwarm, step_of_tag89_op b2 h89 hwarm]
    unfold handle_apdu
    rw [hagree]
  · have h4 : message.drop 4 = (message.drop 2).drop 2 := by
      rw [List.drop_drop]
    rw [h4, List.take_append_drop]

/-- Witness for the amended C3 at a concrete input: the two backends
agree on `message[2:]` but differ elsewhere, and the outcome agrees. -/
theorem apdu_forwards_message_drop_two_witness :
    handle_client_step (fun cmd => some (cmd.length, cmd)) 6
        [0x00, 89, 0x00, 0x01, 0xAB] =
      handle_client_step
        (fun cmd => if cmd = [0x00, 0x01, 0xAB] then some (3, cmd) else none)
        6 [0x00, 89, 0x00, 0x01, 0xAB] ∧
    ([0x00, 89, 0x00, 0x01, 0xAB] : List Nat).drop 2 =
      (([0x00, 89, 0x00, 0x01, 0xAB] : List Nat).drop 2).take 2 ++
        ([0x00, 89, 0x00, 0x01, 0xAB] : List Nat).drop 4 :=
  apdu_forwards_message_drop_two (fun cmd => some (cmd.length, cmd))
    (fun cmd => if cmd = [0x00, 0x01, 0xAB] then some (3, cmd) else none)
    6 [0x00, 89, 0x00, 0x01, 0xAB] (by decide) (by decide) (by decide)

/-- C9: decoding the bytes produced by a successful
`encodeFrame tag payload` yields back exactly `(tag, payload)`. -/
theorem decode_encodeFrame_roundtrip (tag : Nat) (payload : List Nat)
    (bs : List Nat) (h : encodeFrame tag payload = some bs) :
    decode bs = some (tag, payload) := by
  by_cases h1 : tag < 65536
  · by_cases h2 : payload.length < 65536
    · rw [encodeFrame, toBytes2_of_lt h1, toBytes2_of_lt h2] at h
      simp only [Option.some.injEq] at h
      rw [← h]
      simp only [List.cons_append, List.nil_append, decode,
        Nat.div_add_mod' tag 256, Nat.div_add_mod' payload.length 256]
      rw [if_neg (lt_irrefl payload.length), List.take_length]
    · rw [encodeFrame, toBytes2_of_lt h1] at h
      simp [toBytes2, h2] at h
  · rw [encodeFrame] at h
    simp [toBytes2, h1] at h

/-- Witness for C9 at a concrete frame. -/
theorem decode_encodeFrame_roundtrip_witness :
    decode [0x12, 0x34, 0, 3, 1, 2, 3] = some (0x1234, [1, 2, 3]) :=
  decode_encodeFrame_roundtrip 0x1234 [1, 2, 3] [0x12, 0x34, 0, 3, 1, 2, 3]
    (by decide)

/-- With a well-formed backend no iteration of the receive loop ever
terminates the session: every branch either sends a well-formed frame
or silently continues. -/
theorem step_closed_false (b : Backend) (hb : BackendWF b) (elapsed : ℚ)
    (message : List Nat) :
    (handle_client_step b elapsed message).closed = false := by
  cases hm : message[1]? with
  | none =>
    rw [step_of_tag_default b elapsed (fun u hu => by rw [hm] at hu; cases hu)]
  | some t =>
    rcases eq_or_ne t 91 with rfl | h91
    · rw [step_of_tag91 b elapsed hm]
    rcases eq_or_ne t 87 with rfl | h87
    · rw [step_of_tag87 b elapsed hm]
    rcases eq_or_ne t 89 with rfl | h89
    · by_cases hw : elapsed ≤ 5
      · rw [step_of_tag89_warm b hm hw]
      · rw [step_of_tag89_op b hm hw]
        cases hA : handle_apdu b (message.drop 2) with
        | none => rfl
        | some X =>
          show (sendEncoded 90 X).closed = false
          have hle : X.length < 65536 :=
            lt_of_le_of_lt (handle_apdu_length_le hb hA) (by norm_num)
          rw [sendEncoded_of_lt (by norm_num) hle]
    rcases eq_or_ne t 83 with rfl | h83
    · rw [step_of_tag_ignored b elapsed hm (Or.inl rfl)]
    rcases eq_or_ne t 81 with rfl | h81
    · rw [step_of_tag_ignored b elapsed hm (Or.inr (Or.inl rfl))]
    rcases eq_or_ne t 85 with rfl | h85
    · rw [step_of_tag_ignored b elapsed hm (Or.inr (Or.inr rfl))]
    rw [step_of_tag_default b elapsed (fun u hu => by
      rw [hm] at hu
      cases hu
      simp [h91, h87, h89, h83, h81, h85])]

/-- Counterexample to C4: the truncated frame `00 63 FF FF` (declared
length 0xFFFF, zero payload bytes) does not close the session and a
response frame is sent: the dispatcher never reads the inbound length
field, routes on byte index 1 (here the unknown tag 99) and answers
with the generic error frame. -/
theorem truncated_frame_not_closed_cex :
    truncatedFrame [0x00, 0x63, 0xFF, 0xFF] ∧
    (handle_client_step (fun _ => none) 0 [0x00, 0x63, 0xFF, 0xFF]).response =
      some [0x00, 0x02, 0x6d, 0x82] ∧
    nextState (handle_client_step (fun _ => none) 0 [0x00, 0x63, 0xFF, 0xFF]) =
      SessionState.AWAITING_FRAME := by
  refine ⟨by decide, by decide, by decide⟩

/-- C4 amended: a truncated frame is not detected — the dispatcher never
validates the declared length, the message is routed on byte index 1
like any other message, and the session stays in `AWAITING_FRAME`. -/
theorem truncated_frame_session_open (b : Backend) (hb : BackendWF b)
    (elapsed : ℚ) (message : List Nat) (ht : truncatedFrame message) :
    nextState (handle_client_step b elapsed message) =
      SessionState.AWAITING_FRAME := by
  simp [nextState, step_closed_false b hb elapsed message]

/-- Witness for the amended C4: a truncated status-request frame is
still answered and the session stays open. -/
theorem truncated_frame_session_open_witness :
    nextState (handle_client_step (fun _ => none) 7 [0, 91, 0, 200]) =
      SessionState.AWAITING_FRAME :=
  truncated_frame_session_open (fun _ => none)
    (fun cmd n buf h => Option.noConfusion h) 7 [0, 91, 0, 200] (by decide)

/-- Counterexample to C6: the generic unknown-tag response
`00 02 6D 82` does not satisfy the encode invariant — its length field
at bytes 2-3 reads 0x6D82 = 28034 while zero payload bytes follow. -/
theorem encode_invariant_default_cex :
    (handle_client_step (fun _ => none) 0 [0, 0]).response =
      some [0x00, 0x02, 0x6d, 0x82] ∧
    declaredLen [0x00, 0x02, 0x6d, 0x82] = 28034 ∧
    ([0x00, 0x02, 0x6d, 0x82] : List Nat).length - 4 = 0 := by
  refine ⟨by decide, by decide, by decide⟩

/-- C6 amended: every response frame except the fixed unknown-tag
generic error satisfies the encode invariant — its 2-byte big-endian
length field at bytes 2-3 equals the number of payload bytes that
follow. -/
theorem encode_invariant_non_default (b : Backend) (hb : BackendWF b)
    (elapsed : ℚ) (message r : List Nat)
    (hr : (handle_client_step b elapsed message).response = some r)
    (hnd : r ≠ defaultResponse) :
    4 ≤ r.length ∧ declaredLen r + 4 = r.length := by
  cases hm : message[1]? with
  | none =>
    rw [step_of_tag_default b elapsed (fun u hu => by rw [hm] at hu; cases hu)]
      at hr
    have hrr : defaultResponse = r := Option.some.inj hr
    exact absurd hrr.symm hnd
  | some t =>
    rcases eq_or_ne t 91 with rfl | h91
    · rw [step_of_tag91 b elapsed hm] at hr
      have hrr := Option.some.inj hr
      rw [← hrr]
      decide
    rcases eq_or_ne t 87 with rfl | h87
    · rw [step_of_tag87 b elapsed hm] at hr
      have hrr := Option.some.inj hr
      rw [← hrr]
      decide
    rcases eq_or_ne t 89 with rfl | h89
    · by_cases hw : elapsed ≤ 5
      · rw [step_of_tag89_warm b hm hw] at hr
        have hrr := Option.some.inj hr
        rw [← hrr]
        decide
      · rw [step_of_tag89_op b hm hw] at hr
        cases hA : handle_apdu b (message.drop 2) with
        | none =>
          rw [hA] at hr
          have hr2 : (sendEncoded 90 swInsNotSupported).response = some r := hr
          rw [show sendEncoded 90 swInsNotSupported =
            ⟨some [0, 90, 0, 2, 0x6d, 0x82], false⟩ from by decide] at hr2
          have hrr := Option.some.inj hr2
          rw [← hrr]
          decide
        | some X =>
          rw [hA] at hr
          have hr2 : (sendEncoded 90 X).response = some r := hr
          have hle : X.length < 65536 :=
            lt_of_le_of_lt (handle_apdu_length_le hb hA) (by norm_num)
          rw [sendEncoded_of_lt (by norm_num) hle] at hr2
          have hrr := Option.some.inj hr2
          rw [← hrr]
          have hdm := Nat.div_add_mod' X.length 256
          constructor
          · simp
          · simp [declaredLen]
            omega
    rcases eq_or_ne t 83 with rfl | h83
    · rw [step_of_tag_ignored b elapsed hm (Or.inl rfl)] at hr
      exact Option.noConfusion hr
    rcases eq_or_ne t 81 with rfl | h81
    · rw [step_of_tag_ignored b elapsed hm (Or.inr (Or.inl rfl))] at hr
      exact Option.noConfusion hr
    rcases eq_or_ne t 85 with rfl | h85
    · rw [step_of_tag_ignored b elapsed hm (Or.inr (Or.inr rfl))] at hr
      exact Option.noConfusion hr
    rw [step_of_tag_default b elapsed (fun u hu => by
      rw [hm] at hu
      cases hu
      simp [h91, h87, h89, h83, h81, h85])] at hr
    have hrr : defaultResponse = r := Option.some.inj hr
    exact absurd hrr.symm hnd

/-- Witness for the amended C6 on the status-response frame. -/
theorem encode_invariant_non_default_witness :
    4 ≤ ([0, 91, 0, 4, 0x55, 0x55, 0x55, 0x55] : List Nat).length ∧
    declaredLen [0, 91, 0, 4, 0x55, 0x55, 0x55, 0x55] + 4 =
      ([0, 91, 0, 4, 0x55, 0x55, 0x55, 0x55] : List Nat).length :=
  encode_invariant_non_default (fun _ => none)
    (fun cmd n buf h => Option.noConfusion h) 0 [0, 91]
    [0, 91, 0, 4, 0x55, 0x55, 0x55, 0x55] (by decide) (by decide)

end WsCard
